import Mathlib

/-!
Shallow embedding of the librelay-node messaging core.

Source files embedded here:
  * `src/outgoing_message.js` (OutgoingMessage pipeline: padding, key fetch,
    device-drift reconciliation, journaling) — provided as src/unnamed/part_000;
  * `src/message_receiver.js` (MessageReceiver: unpad, handleEnvelope and its
    session-fault recovery).

Machine integers are modelled as `Nat` (byte values are plain naturals; the
code only ever compares them against the constants 0 and 0x80).  External
collaborators (signal service, session store, libsignal primitives) are
modelled as explicit state plus scripted responses: every service call
consumes the next scripted response, so each run is a deterministic,
executable function of the initial state.
-/

/-! ## Padding (OutgoingMessage.getPaddedMessageLength / doSendMessage) -/

/-- Direct translation of `OutgoingMessage.getPaddedMessageLength`:
`messagePartCount = floor((messageLength+1)/160)`, incremented when
`(messageLength+1) % 160 ≠ 0`, times 160. -/
def getPaddedMessageLength (messageLength : Nat) : Nat :=
  let messageLengthWithTerminator := messageLength + 1
  let messagePartCount := messageLengthWithTerminator / 160
  let messagePartCount :=
    if messageLengthWithTerminator % 160 ≠ 0 then messagePartCount + 1
    else messagePartCount
  messagePartCount * 160

/-- The buffer `doSendMessage` hands to the per-device session cipher:
`minLen = getPaddedMessageLength(mBuf.byteLength + 1) - 1` cells are
allocated (zero-filled: the README pins Node ≥ 8, where `new Buffer(size)`
zero-fills), `paddedBuf.set(mBuf)` writes the message at offsets
`0 .. len-1`, and `paddedBuf[len] = 0x80` writes the terminator.
Each cell is given by the offset it holds. -/
def paddedMessage (mBuf : List Nat) : List Nat :=
  let minLen := getPaddedMessageLength (mBuf.length + 1) - 1
  (List.range minLen).map fun i =>
    if i < mBuf.length then mBuf.getD i 0
    else if i = mBuf.length then 0x80
    else 0

/-- The two distinct errors `MessageReceiver.unpad` can throw:
`invalidPadding` models the Invalid padding error (a non-zero, non-0x80
byte met while scanning back), `invalidBuffer` models the Invalid buffer
error (the scan ran off the front without meeting 0x80). -/
inductive UnpadErr where
  | invalidPadding
  | invalidBuffer
  deriving Repr, DecidableEq

/-- The scan-back loop of `MessageReceiver.unpad`, expressed over the
reversed buffer: the head is the byte at the current (descending) index
`i`; returning `rest.reverse` is `buf.slice(0, i)`. -/
def unpadRev : List Nat → Except UnpadErr (List Nat)
  | [] => Except.error UnpadErr.invalidBuffer
  | b :: rest =>
    if b = 0x80 then Except.ok rest.reverse
    else if b ≠ 0 then Except.error UnpadErr.invalidPadding
    else unpadRev rest

/-- `MessageReceiver.unpad`: scan from `buf.byteLength - 1` down to 0;
0x80 returns `buf.slice(0, i)`, any other non-zero byte throws Invalid
padding, and exhausting the buffer throws Invalid buffer. -/
def unpad (buf : List Nat) : Except UnpadErr (List Nat) :=
  unpadRev buf.reverse

/-! ### Padding lemmas -/

lemma getPaddedMessageLength_mod (m : Nat) : getPaddedMessageLength m % 160 = 0 := by
  unfold getPaddedMessageLength
  dsimp only
  split <;> omega

lemma getPaddedMessageLength_ge (m : Nat) : m + 1 ≤ getPaddedMessageLength m := by
  unfold getPaddedMessageLength
  dsimp only
  split <;> omega

/-- The allocate-then-write construction of the padded buffer equals the
message, the 0x80 terminator, then zeros out to `minLen`. -/
lemma paddedMessage_eq (m : List Nat) :
    paddedMessage m =
      m ++ 0x80 :: List.replicate
        (getPaddedMessageLength (m.length + 1) - 1 - (m.length + 1)) 0 := by
  have hge : m.length + 2 ≤ getPaddedMessageLength (m.length + 1) :=
    getPaddedMessageLength_ge (m.length + 1)
  apply List.ext_getElem
  · simp [paddedMessage]
    omega
  · intro i h1 h2
    simp only [paddedMessage, List.getElem_map, List.getElem_range]
    have hlen : i < getPaddedMessageLength (m.length + 1) - 1 := by
      simpa [paddedMessage] using h1
    by_cases hi : i < m.length
    · rw [List.getElem_append_left hi]
      exact (List.getD_eq_getElem m 0 hi).symm ▸ by simp [hi, List.getD_eq_getElem m 0 hi]
    · rw [List.getElem_append_right (by omega)]
      by_cases he : i = m.length
      · simp [hi, he]
      · have hne : i - m.length ≠ 0 := by omega
        simp [hi, he, List.getElem_cons, hne]

/-- Scanning back over trailing zeros finds the 0x80 terminator and returns
everything before it. -/
lemma unpadRev_replicate_zero (k : Nat) (t : List Nat) :
    unpadRev (List.replicate k 0 ++ 0x80 :: t) = Except.ok t.reverse := by
  induction k with
  | zero => simp [unpadRev]
  | succ n ih => simpa [unpadRev] using ih

/-- A buffer containing no 0x80 byte makes `unpadRev` fail: with the
Invalid padding error when some byte is non-zero, with the Invalid buffer
error when all bytes are zero. -/
lemma unpadRev_no_terminator (l : List Nat) (h : 0x80 ∉ l) :
    unpadRev l =
      Except.error
        (if l.all (fun b => b == 0) then UnpadErr.invalidBuffer
         else UnpadErr.invalidPadding) := by
  induction l with
  | nil => simp [unpadRev]
  | cons b rest ih =>
    have hb : b ≠ 0x80 := fun hb => h (hb ▸ List.mem_cons_self b rest)
    have hrest : 0x80 ∉ rest := fun hm => h (List.mem_cons_of_mem b hm)
    by_cases hz : b = 0
    · subst hz
      rw [unpadRev]
      simp only [if_neg (by omega : ¬ (0 : Nat) = 0x80)]
      simpa using ih hrest
    · rw [unpadRev]
      simp [hb, hz]

/-! ## OutgoingMessage pipeline (src/unnamed/part_000)

The pipeline is embedded as a deterministic state machine.  The remote
signal service is scripted: `St.keyScript` holds the successive responses
of `server.getKeysForAddr`, and the list of `server.sendMessages`
responses is threaded through the send functions explicitly (this gives
structural termination: every recursive round of `doSendMessage` first
consumes one send response).  libsignal session state is reduced to what
the pipeline observes: per `(addr, deviceId)`, whether a session record
exists and whether it is open.  `SessionBuilder.processPreKey` outcomes
are carried by the scripted device entries.  Instrumentation logs record
the externally visible calls the claims talk about. -/

/-- A ProtocolError from the signal service: HTTP-like code plus the
response fields the drift branches read. -/
structure ProtoErr where
  code : Nat
  extraDevices : List Nat
  missingDevices : List Nat
  staleDevices : List Nat
  deriving Repr, DecidableEq

/-- Outcome of `SessionBuilder.processPreKey` for one fetched device
entry (scripted stand-in for the external ratchet library). -/
inductive PKOut where
  | ok
  | identityChanged
  | fail
  deriving Repr, DecidableEq

/-- One device entry of a prekey-fetch response. -/
structure DeviceEntry where
  deviceId : Nat
  pk : PKOut
  deriving Repr, DecidableEq

/-- A successful `server.getKeysForAddr` response body. -/
structure KeyBundle where
  identityKey : Nat
  devices : List DeviceEntry
  deriving Repr, DecidableEq

/-- Scripted response of one `server.getKeysForAddr` call. -/
inductive KeyResp where
  | ok (bundle : KeyBundle)
  | err (p : ProtoErr)
  deriving Repr, DecidableEq

/-- Scripted response of one `server.sendMessages` call: success, a typed
protocol error, or a plain network failure. -/
inductive SendResp where
  | ok
  | proto (p : ProtoErr)
  | network
  deriving Repr, DecidableEq

/-- The error taxonomy of errors.js as observed by OutgoingMessage. -/
inductive OutErr where
  | protocol (p : ProtoErr)
  | unregisteredUser (addr : Nat)
  | sendMessage (addr : Nat)
  | network
  | outgoingMessage (addr : Nat)
  | outgoingIdentityKey (addr : Nat) (identityKey : Nat)
  | processPreKeyFailure
  | fuelExhausted
  deriving Repr, DecidableEq

/-- The reason strings OutgoingMessage attaches to error journal entries,
as an enumeration (one constructor per string in the source). -/
inductive Reason where
  | getDeviceIdsFailed
  | retrieveNewKeysFailed
  | sendToAddrFailed
  | createMessageFailed
  | retryLimit
  | reloadKeysFailed
  | sendFailed
  deriving Repr, DecidableEq

/-- Immutable per-OutgoingMessage configuration: constructor arguments
`(timestamp, messageBuffer)`. -/
structure Cfg where
  timestamp : Nat
  messageBuffer : List Nat
  deriving Repr, DecidableEq

/-- Pipeline state: own address and session store, the scripted prekey
responses, the two append-only journals, and instrumentation logs of the
external calls (prekey fetches, transmits, session removals and closes,
keychange events). -/
structure St where
  ourAddr : Nat
  sessions : List ((Nat × Nat) × Bool)
  keyScript : List KeyResp
  sent : List Nat
  errs : List (Nat × Reason × OutErr)
  keyFetchLog : List (Nat × Option Nat)
  transmitLog : List (Nat × List Nat × List Nat)
  removedLog : List (Nat × Nat)
  closedLog : List (Nat × Nat)
  keychangeLog : List (Nat × Nat)
  deriving Repr, DecidableEq

/-- `storage.getDeviceIds(addr)`: the device ids with a stored session
record for `addr`, in store order. -/
def getDeviceIds (st : St) (addr : Nat) : List Nat :=
  (st.sessions.filter (fun s => s.1.1 == addr)).map (fun s => s.1.2)

/-- `sessionCipher.hasOpenSession()` for `(addr, dev)`. -/
def hasOpenSession (st : St) (addr dev : Nat) : Bool :=
  st.sessions.any (fun s => s.1 == (addr, dev) && s.2)

/-- `storage.removeSession("<addr>.<dev>")`: drop the session record. -/
def storeRemoveSession (st : St) (addr dev : Nat) : St :=
  { st with
    sessions := st.sessions.filter (fun s => !(s.1 == (addr, dev))),
    removedLog := st.removedLog ++ [(addr, dev)] }

/-- `sessionCipher.closeOpenSessionForDevice()`: mark the session closed
but keep the record in the store. -/
def closeOpenSessionStore (st : St) (addr dev : Nat) : St :=
  { st with
    sessions := st.sessions.map
      (fun s => if s.1 == (addr, dev) then (s.1, false) else s),
    closedLog := st.closedLog ++ [(addr, dev)] }

/-- Successful `SessionBuilder.processPreKey`: an open session now exists
for `(addr, dev)`. -/
def putOpenSession (st : St) (addr dev : Nat) : St :=
  if st.sessions.any (fun s => s.1 == (addr, dev)) then
    { st with
      sessions := st.sessions.map
        (fun s => if s.1 == (addr, dev) then (s.1, true) else s) }
  else
    { st with sessions := st.sessions ++ [((addr, dev), true)] }

/-- `OutgoingMessage.emitSent`: append a journal entry naming `addr`. -/
def emitSent (addr : Nat) (st : St) : St :=
  { st with sent := st.sent ++ [addr] }

/-- The wrapping step of `OutgoingMessage.emitError`: a ProtocolError
whose code is not 404 is replaced by an OutgoingMessageError. -/
def wrapError (addr : Nat) (e : OutErr) : OutErr :=
  match e with
  | OutErr.protocol p =>
    if p.code ≠ 404 then OutErr.outgoingMessage addr else OutErr.protocol p
  | e => e

/-- `OutgoingMessage.emitError`: append an error journal entry naming
`addr` (event listener callbacks are not modelled). -/
def emitError (addr : Nat) (reason : Reason) (e : OutErr) (st : St) : St :=
  { st with errs := st.errs ++ [(addr, reason, wrapError addr e)] }

/-- `server.getKeysForAddr(addr, deviceId?)`: log the call and consume
the next scripted response (an exhausted script acts as an opaque
protocol error). -/
def serverGetKeys (addr : Nat) (dev : Option Nat) (st : St) : KeyResp × St :=
  let st := { st with keyFetchLog := st.keyFetchLog ++ [(addr, dev)] }
  match st.keyScript with
  | [] => (KeyResp.err ⟨599, [], [], []⟩, st)
  | r :: rest => (r, { st with keyScript := rest })

/-- `OutgoingMessage.removeDeviceIdsForAddr`: remove the session of every
listed device id. -/
def removeDeviceIdsForAddr (addr : Nat) (deviceIdsToRemove : List Nat) (st : St) : St :=
  deviceIdsToRemove.foldl (fun st id => storeRemoveSession st addr id) st

/-- Device filter of `handleResult`:
`updateDevices === undefined || updateDevices.indexOf(deviceId) > -1`. -/
def inUpdateDevices (updateDevices : Option (List Nat)) (dev : Nat) : Bool :=
  match updateDevices with
  | none => true
  | some l => l.contains dev

/-- `handleResult` inside `getKeysForAddr`, on the reentrant (second)
pass: per fetched device entry run `processPreKey`; an Identity key
changed failure now throws OutgoingIdentityKeyError (carrying the
response identity key), any other builder failure is rethrown.  The
concurrent `Promise.all` jobs are sequentialized in response order. -/
def handleResultT (addr : Nat) (updateDevices : Option (List Nat)) (identityKey : Nat) :
    List DeviceEntry → St → Except OutErr Unit × St
  | [], st => (Except.ok (), st)
  | d :: rest, st =>
    if inUpdateDevices updateDevices d.deviceId then
      match d.pk with
      | PKOut.ok =>
        handleResultT addr updateDevices identityKey rest (putOpenSession st addr d.deviceId)
      | PKOut.identityChanged =>
        (Except.error (OutErr.outgoingIdentityKey addr identityKey), st)
      | PKOut.fail => (Except.error OutErr.processPreKeyFailure, st)
    else handleResultT addr updateDevices identityKey rest st

/-- The serialized per-device fetch loop of `getKeysForAddr` (reentrant
pass): fetch each device in `remaining` one at a time; a 404 for a device
other than 1 removes that session locally and the loop continues, every
other error is rethrown.  `updateDevices` is the full closed-over list
used by the `handleResult` filter. -/
def getKeysLoopT (addr : Nat) (updateDevices : List Nat) :
    List Nat → St → Except OutErr Unit × St
  | [], st => (Except.ok (), st)
  | dev :: remaining, st =>
    let fr := serverGetKeys addr (some dev) st
    let hr :=
      match fr.1 with
      | KeyResp.err p => (Except.error (OutErr.protocol p), fr.2)
      | KeyResp.ok bundle =>
        handleResultT addr (some updateDevices) bundle.identityKey bundle.devices fr.2
    match hr.1 with
    | Except.ok _ => getKeysLoopT addr updateDevices remaining hr.2
    | Except.error e =>
      match e with
      | OutErr.protocol p =>
        if p.code = 404 ∧ dev ≠ 1 then
          getKeysLoopT addr updateDevices remaining
            (removeDeviceIdsForAddr addr [dev] hr.2)
        else (Except.error (OutErr.protocol p), hr.2)
      | e => (Except.error e, hr.2)

/-- `getKeysForAddr(addr, updateDevices, reentrant = true)`: one bulk
fetch when `updateDevices` is undefined, otherwise the serialized
per-device loop. -/
def getKeysForAddrT (addr : Nat) (updateDevices : Option (List Nat)) (st : St) :
    Except OutErr Unit × St :=
  match updateDevices with
  | none =>
    let fr := serverGetKeys addr none st
    match fr.1 with
    | KeyResp.err p => (Except.error (OutErr.protocol p), fr.2)
    | KeyResp.ok bundle =>
      handleResultT addr none bundle.identityKey bundle.devices fr.2
  | some l => getKeysLoopT addr l l st

/-- `handleResult` on the first (non-reentrant) pass: an Identity key
changed failure emits a `keychange` event and re-runs the whole
`getKeysForAddr` marked reentrant, then the remaining device entries of
the original response are still processed. -/
def handleResultF (addr : Nat) (updateDevices : Option (List Nat)) (identityKey : Nat) :
    List DeviceEntry → St → Except OutErr Unit × St
  | [], st => (Except.ok (), st)
  | d :: rest, st =>
    if inUpdateDevices updateDevices d.deviceId then
      match d.pk with
      | PKOut.ok =>
        handleResultF addr updateDevices identityKey rest (putOpenSession st addr d.deviceId)
      | PKOut.identityChanged =>
        let st := { st with keychangeLog := st.keychangeLog ++ [(addr, identityKey)] }
        let ir := getKeysForAddrT addr updateDevices st
        match ir.1 with
        | Except.ok _ => handleResultF addr updateDevices identityKey rest ir.2
        | Except.error e => (Except.error e, ir.2)
      | PKOut.fail => (Except.error OutErr.processPreKeyFailure, st)
    else handleResultF addr updateDevices identityKey rest st

/-- The serialized per-device fetch loop of `getKeysForAddr` on the first
pass (same 404 handling as the reentrant loop). -/
def getKeysLoopF (addr : Nat) (updateDevices : List Nat) :
    List Nat → St → Except OutErr Unit × St
  | [], st => (Except.ok (), st)
  | dev :: remaining, st =>
    let fr := serverGetKeys addr (some dev) st
    let hr :=
      match fr.1 with
      | KeyResp.err p => (Except.error (OutErr.protocol p), fr.2)
      | KeyResp.ok bundle =>
        handleResultF addr (some updateDevices) bundle.identityKey bundle.devices fr.2
    match hr.1 with
    | Except.ok _ => getKeysLoopF addr updateDevices remaining hr.2
    | Except.error e =>
      match e with
      | OutErr.protocol p =>
        if p.code = 404 ∧ dev ≠ 1 then
          getKeysLoopF addr updateDevices remaining
            (removeDeviceIdsForAddr addr [dev] hr.2)
        else (Except.error (OutErr.protocol p), hr.2)
      | e => (Except.error e, hr.2)

/-- `OutgoingMessage.getKeysForAddr(addr, updateDevices)` (first,
non-reentrant call). -/
def getKeysForAddr (addr : Nat) (updateDevices : Option (List Nat)) (st : St) :
    Except OutErr Unit × St :=
  match updateDevices with
  | none =>
    let fr := serverGetKeys addr none st
    match fr.1 with
    | KeyResp.err p => (Except.error (OutErr.protocol p), fr.2)
    | KeyResp.ok bundle =>
      handleResultF addr none bundle.identityKey bundle.devices fr.2
  | some l => getKeysLoopF addr l l st

/-- `OutgoingMessage.transmitMessage`: classify one `server.sendMessages`
response.  A ProtocolError other than 409/410 becomes
UnregisteredUserError (404) or SendMessageError; 409/410 and network
errors bubble unchanged.  `none` stands for an exhausted response script
and behaves as a network failure. -/
def transmitMessage (addr : Nat) (r : Option SendResp) : Except OutErr Unit :=
  match r with
  | none => Except.error OutErr.network
  | some SendResp.ok => Except.ok ()
  | some SendResp.network => Except.error OutErr.network
  | some (SendResp.proto p) =>
    if p.code ≠ 409 && p.code ≠ 410 then
      if p.code = 404 then Except.error (OutErr.unregisteredUser addr)
      else Except.error (OutErr.sendMessage addr)
    else Except.error (OutErr.protocol p)

/-- `OutgoingMessage.getStaleDeviceIdsForAddr`: stored device ids for the
address ([1] when none are stored and the address is not our own), kept
when they lack an open session. -/
def getStaleDeviceIdsForAddr (addr : Nat) (st : St) : List Nat :=
  let deviceIds := getDeviceIds st addr
  let deviceIds :=
    if deviceIds.isEmpty then
      if addr != st.ourAddr then [1] else []
    else deviceIds
  deviceIds.filter (fun id => !(hasOpenSession st addr id))

/-- `OutgoingMessage.doSendMessage(addr, deviceIds, recurse)`.

The padded buffer is built exactly as in the source and handed to the
per-device session ciphers (the cipher itself is external; encryption is
modelled as total, so the Failed to create message branch is never taken
here).  Each transmit logs `(addr, deviceIds, paddedBuf)` and consumes
the head of `sends`.  On a 409/410 ProtocolError with `recurse` set, the
drift branch runs: 409 removes the sessions of `extraDevices`, 410 closes
(but keeps) the sessions of `staleDevices`; `getKeysForAddr` is then run
for the reset devices — uncaught, so its failure propagates out of
`doSendMessage` — and `reloadDevicesAndSend(addr, e.code === 409)` is
awaited inside the inner try (its body is inlined at the recursion site
so that the recursion is structural on `fuel`; `fuel` only decreases
here, and every round first consumes one send response, so starting fuel
`sends.length + 1` can never run out — the `fuelExhausted` branch is
unreachable from `sendToAddr`).  When the inner call returns without
throwing, control falls out of the catch and `emitSent` runs, exactly as
in the source. -/
def doSendMessage (cfg : Cfg) (addr : Nat) (deviceIds : List Nat) (recurse : Bool) :
    Nat → List SendResp → St → Except OutErr Unit × List SendResp × St
  | fuel, sends, st =>
    let paddedBuf := paddedMessage cfg.messageBuffer
    let st := { st with transmitLog := st.transmitLog ++ [(addr, deviceIds, paddedBuf)] }
    match sends with
    | [] =>
      (Except.ok (), [], emitError addr Reason.sendFailed OutErr.network st)
    | r :: rest =>
      match transmitMessage addr (some r) with
      | Except.ok _ => (Except.ok (), rest, emitSent addr st)
      | Except.error e =>
        match e with
        | OutErr.protocol p =>
          if p.code == 409 || p.code == 410 then
            if !recurse then
              (Except.ok (), rest,
                emitError addr Reason.retryLimit (OutErr.protocol p) st)
            else
              let st :=
                if p.code == 409 then removeDeviceIdsForAddr addr p.extraDevices st
                else p.staleDevices.foldl (fun st x => closeOpenSessionStore st addr x) st
              let resetDevices :=
                if p.code == 410 then p.staleDevices else p.missingDevices
              let kr := getKeysForAddr addr (some resetDevices) st
              match kr.1 with
              | Except.error ke => (Except.error ke, rest, kr.2)
              | Except.ok _ =>
                match fuel with
                | 0 => (Except.error OutErr.fuelExhausted, rest, kr.2)
                | fuel + 1 =>
                  let st2 := kr.2
                  let deviceIds2 := getDeviceIds st2 addr
                  let inner :=
                    if deviceIds2.isEmpty then
                      if addr == st2.ourAddr then
                        doSendMessage cfg addr deviceIds2 (p.code == 409) fuel rest
                          (emitSent addr st2)
                      else (Except.ok (), rest, st2)
                    else doSendMessage cfg addr deviceIds2 (p.code == 409) fuel rest st2
                  match inner.1 with
                  | Except.error ie =>
                    (Except.ok (), inner.2.1,
                      emitError addr Reason.reloadKeysFailed ie inner.2.2)
                  | Except.ok _ => (Except.ok (), inner.2.1, emitSent addr inner.2.2)
          else (Except.ok (), rest, emitError addr Reason.sendFailed e st)
        | e => (Except.ok (), rest, emitError addr Reason.sendFailed e st)

/-- `OutgoingMessage.reloadDevicesAndSend(addr, recurse)`: re-read the
stored device ids; when none exist, a foreign address just returns
(Unregistered address warning — no journal entry), while our own address
emits `sent` and then still falls through into `doSendMessage` with the
empty device list. -/
def reloadDevicesAndSend (cfg : Cfg) (addr : Nat) (recurse : Bool)
    (fuel : Nat) (sends : List SendResp) (st : St) :
    Except OutErr Unit × List SendResp × St :=
  let deviceIds := getDeviceIds st addr
  if deviceIds.isEmpty then
    if addr == st.ourAddr then
      doSendMessage cfg addr deviceIds recurse fuel sends (emitSent addr st)
    else (Except.ok (), sends, st)
  else doSendMessage cfg addr deviceIds recurse fuel sends st

/-- `OutgoingMessage.sendToAddr(addr)`: the three stages, each inside its
own try/catch whose handler journals an error entry and lets execution
continue.  `getStaleDeviceIdsForAddr` is total in this model (the store
is in memory), so its catch arm is vacuous and `updateDevices` is always
defined.  The starting fuel `sends.length + 1` makes the fuel bound of
`doSendMessage` unreachable. -/
def sendToAddr (cfg : Cfg) (addr : Nat) (sends : List SendResp) (st : St) :
    Except OutErr Unit × List SendResp × St :=
  let updateDevices := getStaleDeviceIdsForAddr addr st
  let kr := getKeysForAddr addr (some updateDevices) st
  let st2 :=
    match kr.1 with
    | Except.ok _ => kr.2
    | Except.error e => emitError addr Reason.retrieveNewKeysFailed e kr.2
  let rr := reloadDevicesAndSend cfg addr true (sends.length + 1) sends st2
  (Except.ok (), rr.2.1,
    match rr.1 with
    | Except.ok _ => rr.2.2
    | Except.error e => emitError addr Reason.sendToAddrFailed e rr.2.2)

/-- A pipeline state with empty journals and logs. -/
def initSt (ourAddr : Nat) (sessions : List ((Nat × Nat) × Bool))
    (keyScript : List KeyResp) : St :=
  ⟨ourAddr, sessions, keyScript, [], [], [], [], [], [], []⟩

/-! ## MessageReceiver.handleEnvelope (src/src/message_receiver.js)

Envelope decryption and payload handling are external to the claims, so
the body of the chosen handler (`handleContentMessage` or
`handleLegacyMessage`) is scripted: each attempt consumes the next
outcome from `RSt.attempts`; a successful attempt models the
`handleDataMessage` dispatch of a `message` event carrying
`envelope.keyChange`.  In the libsignal library consumed by this code,
MessageCounterError and PreKeyError extend SessionError while
UntrustedIdentityKeyError does not, which is what the catch chain in
`handleEnvelope` relies on. -/

/-- The libsignal error classes `handleEnvelope` distinguishes, plus the
throw for an envelope with neither content nor legacyMessage. -/
inductive RecvErr where
  | counter
  | untrustedIdentity
  | preKey
  | session
  | noContent
  | other
  deriving Repr, DecidableEq

/-- `e instanceof libsignal.SessionError`. -/
def isSessionError : RecvErr → Bool
  | RecvErr.counter => true
  | RecvErr.preKey => true
  | RecvErr.session => true
  | _ => false

/-- The envelope fields `handleEnvelope` reads.  `keyChange` is the flag
the code mutates before the reentrant retry. -/
structure Envelope where
  source : Nat
  sourceDevice : Nat
  timestamp : Nat
  isReceipt : Bool
  hasContent : Bool
  hasLegacy : Bool
  keyChange : Bool
  deriving Repr, DecidableEq

/-- Events dispatched by the receiver paths modelled here. -/
inductive REvent where
  | receipt (source : Nat)
  | keychange (source : Nat)
  | message (source : Nat) (keyChange : Bool)
  | errorEv (source : Nat) (timestamp : Nat)
  deriving Repr, DecidableEq

/-- Receiver state: blocked set, the scripted handler outcomes (`none` is
success), the dispatched events, and logs of the recovery actions
(prekey regeneration+registration, `_sender.closeSession` with its
retransmit timestamp). -/
structure RSt where
  blocked : List Nat
  attempts : List (Option RecvErr)
  events : List REvent
  keysRegistered : Nat
  closeSessionLog : List (Nat × Nat × Nat)
  deriving Repr, DecidableEq

/-- Consume the next scripted handler outcome (an exhausted script acts
as success). -/
def popAttempt (st : RSt) : Option RecvErr × RSt :=
  match st.attempts with
  | [] => (none, st)
  | a :: rest => (a, { st with attempts := rest })

/-- The tail of the catch chain shared by both `handleEnvelope` passes:
for a SessionError, regenerate and register prekeys first when it is a
PreKeyError, then close the session for `source.sourceDevice` requesting
retransmit of `envelope.timestamp`; in every case fall through to
dispatch an `error` event carrying the envelope. -/
def sessionFault (env : Envelope) (e : RecvErr) (st : RSt) : RSt :=
  let st :=
    if isSessionError e then
      let st :=
        if e = RecvErr.preKey then
          { st with keysRegistered := st.keysRegistered + 1 }
        else st
      { st with
        closeSessionLog :=
          st.closeSessionLog ++ [(env.source, env.sourceDevice, env.timestamp)] }
    else st
  { st with events := st.events ++ [REvent.errorEv env.source env.timestamp] }

/-- `handleEnvelope(envelope, reentrant = true)`: blocked sources are
dropped, receipts dispatch `receipt`, an envelope with no content and no
legacyMessage throws; otherwise the handler runs and its errors are
classified — a duplicate-counter error is swallowed, and an untrusted
identity key is no longer retried (it is not a SessionError, so it goes
straight to the terminal `error` event). -/
def handleEnvelopeR (env : Envelope) (st : RSt) : Except RecvErr Unit × RSt :=
  if st.blocked.contains env.source then (Except.ok (), st)
  else if env.isReceipt then
    (Except.ok (), { st with events := st.events ++ [REvent.receipt env.source] })
  else if !(env.hasContent || env.hasLegacy) then
    (Except.error RecvErr.noContent, st)
  else
    let pr := popAttempt st
    match pr.1 with
    | none =>
      (Except.ok (),
        { pr.2 with
          events := pr.2.events ++ [REvent.message env.source env.keyChange] })
    | some e =>
      if e = RecvErr.counter then (Except.ok (), pr.2)
      else (Except.ok (), sessionFault env e pr.2)

/-- `MessageReceiver.handleEnvelope(envelope)` (first, non-reentrant
call).  `accept` is the keychange listener decision: after the
`keychange` event is dispatched, `e.accepted` holds `accept` (or is
forced when `forceAcceptKeyChange` is set, in which case no event is
dispatched).  When accepted, `envelope.keyChange` is set and the same
envelope is re-handled once with `reentrant = true`; the inner result
propagates. -/
def handleEnvelope (accept : Bool) (forceAcceptKeyChange : Bool)
    (env : Envelope) (st : RSt) : Except RecvErr Unit × RSt :=
  if st.blocked.contains env.source then (Except.ok (), st)
  else if env.isReceipt then
    (Except.ok (), { st with events := st.events ++ [REvent.receipt env.source] })
  else if !(env.hasContent || env.hasLegacy) then
    (Except.error RecvErr.noContent, st)
  else
    let pr := popAttempt st
    match pr.1 with
    | none =>
      (Except.ok (),
        { pr.2 with
          events := pr.2.events ++ [REvent.message env.source env.keyChange] })
    | some e =>
      if e = RecvErr.counter then (Except.ok (), pr.2)
      else if e = RecvErr.untrustedIdentity then
        let st2 :=
          if forceAcceptKeyChange then pr.2
          else { pr.2 with events := pr.2.events ++ [REvent.keychange env.source] }
        let accepted := forceAcceptKeyChange || accept
        if accepted then handleEnvelopeR { env with keyChange := true } st2
        else (Except.ok (), st2)
      else (Except.ok (), sessionFault env e pr.2)

/-! ## Claim theorems -/

set_option maxRecDepth 4000 in
/-- Claim C3, counterexample: for the 2-byte message buffer `[1, 2]` the
buffer `doSendMessage` passes to per-device encryption has length 159,
which is not a multiple of 160 and not `ceil((2+1)/160)*160 = 160`, so
the claimed length `ceil((len+1)/160)*160` is wrong. -/
theorem paddedMessage_length_not_multiple_of_160 :
    (paddedMessage [1, 2]).length = 159 ∧ (paddedMessage [1, 2]).length % 160 ≠ 0 := by
  constructor <;> decide

/-- Claim C3 (amended): for every message buffer of length `len`, the
buffer `doSendMessage` passes to per-device encryption is the original
bytes, a single 0x80 terminator at offset `len`, then zeros, with total
length `getPaddedMessageLength(len+1) - 1 = ceil((len+2)/160)*160 - 1` —
congruent to 159 mod 160 and strictly greater than `len` (not a multiple
of 160 as the spec sentence claims). -/
theorem paddedMessage_shape (msg : List Nat) :
    paddedMessage msg =
      msg ++ 0x80 :: List.replicate
        (getPaddedMessageLength (msg.length + 1) - 1 - (msg.length + 1)) 0
    ∧ (paddedMessage msg).length = getPaddedMessageLength (msg.length + 1) - 1
    ∧ (paddedMessage msg).length % 160 = 159
    ∧ msg.length < (paddedMessage msg).length := by
  have hge : msg.length + 2 ≤ getPaddedMessageLength (msg.length + 1) :=
    getPaddedMessageLength_ge (msg.length + 1)
  have hmod : getPaddedMessageLength (msg.length + 1) % 160 = 0 :=
    getPaddedMessageLength_mod (msg.length + 1)
  have hlen : (paddedMessage msg).length = getPaddedMessageLength (msg.length + 1) - 1 := by
    rw [paddedMessage_eq msg]
    simp
    omega
  refine ⟨paddedMessage_eq msg, hlen, ?_, ?_⟩ <;> rw [hlen] <;> omega

/-- Claim C4: unpadding inverts padding — `MessageReceiver.unpad` applied
to the padded buffer built by `OutgoingMessage.doSendMessage` returns
exactly the original message without raising, for every message buffer. -/
theorem unpad_paddedMessage (msg : List Nat) :
    unpad (paddedMessage msg) = Except.ok msg := by
  rw [unpad, paddedMessage_eq msg]
  rw [List.reverse_append, List.reverse_cons, List.reverse_replicate,
    List.append_assoc, List.singleton_append]
  rw [unpadRev_replicate_zero, List.reverse_reverse]

/-- Claim C9: a buffer containing no 0x80 byte anywhere makes
`MessageReceiver.unpad` raise and never return: the Invalid buffer error
when every byte is zero (including the empty buffer), and the distinct
Invalid padding error when a non-zero byte is met while scanning back. -/
theorem unpad_no_terminator (buf : List Nat) (h : 0x80 ∉ buf) :
    unpad buf =
      Except.error
        (if buf.all (fun b => b == 0) then UnpadErr.invalidBuffer
         else UnpadErr.invalidPadding) := by
  rw [unpad, unpadRev_no_terminator buf.reverse (by simpa using h)]
  simp [List.all_reverse]

/-- Claim C9, witness: concrete evaluations of `unpad_no_terminator` on a
buffer with a non-zero byte and on an all-zero buffer. -/
theorem unpad_no_terminator_witness :
    unpad [0, 5, 0] = Except.error UnpadErr.invalidPadding
    ∧ unpad [0, 0] = Except.error UnpadErr.invalidBuffer := by
  constructor
  · have h := unpad_no_terminator [0, 5, 0] (by decide)
    simpa using h
  · have h := unpad_no_terminator [0, 0] (by decide)
    simpa using h

set_option maxRecDepth 8000 in
/-- Claim C1, counterexample: with device 2 stored but lacking an open
session and a prekey fetch that fails with a 500, followed by a
successful transmit, `sendToAddr` appends **two** journal entries for the
address (one error from the failed key-fetch stage, one sent from the
send stage that still runs), refuting one-entry-exactly. -/
theorem sendToAddr_two_journal_entries :
    ((sendToAddr ⟨1234, [1]⟩ 7 [SendResp.ok]
        (initSt 0 [((7, 1), true), ((7, 2), false)]
          [KeyResp.err ⟨500, [], [], []⟩])).2.2.sent.length
      + (sendToAddr ⟨1234, [1]⟩ 7 [SendResp.ok]
          (initSt 0 [((7, 1), true), ((7, 2), false)]
            [KeyResp.err ⟨500, [], [], []⟩])).2.2.errs.length) = 2 := by
  decide

set_option maxRecDepth 8000 in
/-- Claim C1 (amended): no exception escapes `sendToAddr` — every
invocation returns normally — but the number of journal entries
mentioning the address is not always one: each stage that fails appends
an error entry while later stages still run (two entries in the
counterexample run repeated here), and a foreign address whose key fetch
returns no devices appends no entry at all. -/
theorem sendToAddr_no_throw_journal_bounds :
    (∀ cfg addr sends st, (sendToAddr cfg addr sends st).1 = Except.ok ())
    ∧ ((sendToAddr ⟨1234, [1]⟩ 7 [SendResp.ok]
        (initSt 0 [((7, 1), true), ((7, 2), false)]
          [KeyResp.err ⟨500, [], [], []⟩])).2.2.sent.length
      + (sendToAddr ⟨1234, [1]⟩ 7 [SendResp.ok]
          (initSt 0 [((7, 1), true), ((7, 2), false)]
            [KeyResp.err ⟨500, [], [], []⟩])).2.2.errs.length) = 2
    ∧ ((sendToAddr ⟨1234, [1]⟩ 9 []
        (initSt 0 [] [KeyResp.ok ⟨5, []⟩])).2.2.sent.length
      + (sendToAddr ⟨1234, [1]⟩ 9 []
          (initSt 0 [] [KeyResp.ok ⟨5, []⟩])).2.2.errs.length) = 0 := by
  refine ⟨fun cfg addr sends st => rfl, by decide, by decide⟩

set_option maxRecDepth 8000 in
/-- Claim C2, counterexample: with the send script 409, 409, 200 a single
`sendToAddr` call performs **three** transmits (`sendMessages` calls):
the retry after the first 409 runs with `recurse = (e.code === 409)`,
which is true, so the second 409 launches yet another round instead of
being a terminal retry-limit error. -/
theorem sendToAddr_three_transmits_after_409 :
    (sendToAddr ⟨1234, [1]⟩ 7
      [SendResp.proto ⟨409, [], [], []⟩, SendResp.proto ⟨409, [], [], []⟩,
        SendResp.ok]
      (initSt 0 [((7, 1), true)] [])).2.2.transmitLog.length = 3 := by
  decide

set_option maxRecDepth 8000 in
/-- Claim C2 (amended): the retry after a 410 runs with `recurse=false`,
so any drift response (409 or 410) met with `recurse=false` is a terminal
retry-limit error that consumes exactly one more send response and never
leads to another transmit (first conjunct, over all states); concretely,
the script 410 then 409 yields two transmits and a retry-limit error
entry (second and third conjuncts); but the retry after a 409 runs with
`recurse=true`, so the script 409, 409, 200 yields three transmits
(fourth conjunct). -/
theorem doSendMessage_drift_retry_flags :
    (∀ (cfg : Cfg) (addr : Nat) (deviceIds : List Nat) (fuel : Nat)
        (rest : List SendResp) (st : St) (p : ProtoErr),
      p.code = 409 ∨ p.code = 410 →
      doSendMessage cfg addr deviceIds false fuel (SendResp.proto p :: rest) st =
        (Except.ok (), rest,
          emitError addr Reason.retryLimit (OutErr.protocol p)
            { st with transmitLog :=
                st.transmitLog ++ [(addr, deviceIds, paddedMessage cfg.messageBuffer)] }))
    ∧ (sendToAddr ⟨1234, [1]⟩ 7
        [SendResp.proto ⟨410, [], [], [2]⟩, SendResp.proto ⟨409, [], [], []⟩]
        (initSt 0 [((7, 1), true), ((7, 2), true)]
          [KeyResp.ok ⟨9, [⟨2, PKOut.ok⟩]⟩])).2.2.transmitLog.length = 2
    ∧ (sendToAddr ⟨1234, [1]⟩ 7
        [SendResp.proto ⟨410, [], [], [2]⟩, SendResp.proto ⟨409, [], [], []⟩]
        (initSt 0 [((7, 1), true), ((7, 2), true)]
          [KeyResp.ok ⟨9, [⟨2, PKOut.ok⟩]⟩])).2.2.errs =
      [(7, Reason.retryLimit, OutErr.outgoingMessage 7)]
    ∧ (sendToAddr ⟨1234, [1]⟩ 7
        [SendResp.proto ⟨409, [], [], []⟩, SendResp.proto ⟨409, [], [], []⟩,
          SendResp.ok]
        (initSt 0 [((7, 1), true)] [])).2.2.transmitLog.length = 3 := by
  refine ⟨?_, by decide, by decide, by decide⟩
  intro cfg addr deviceIds fuel rest st p hp
  obtain ⟨c, a, b, d⟩ := p
  rcases hp with h | h <;> simp only at h <;> subst h <;>
    simp [doSendMessage, transmitMessage, emitError, wrapError]

set_option maxRecDepth 8000 in
/-- Claim C2 (amended), witness: the first conjunct of
`doSendMessage_drift_retry_flags` evaluated at a concrete 410 response
with `recurse=false`. -/
theorem doSendMessage_drift_retry_flags_witness :
    doSendMessage ⟨0, []⟩ 7 [1] false 0 [SendResp.proto ⟨410, [], [], []⟩]
      (initSt 0 [] []) =
      (Except.ok (), [],
        emitError 7 Reason.retryLimit (OutErr.protocol ⟨410, [], [], []⟩)
          { initSt 0 [] [] with
            transmitLog := [(7, [1], paddedMessage [])] }) :=
  doSendMessage_drift_retry_flags.1 ⟨0, []⟩ 7 [1] 0 [] (initSt 0 [] [])
    ⟨410, [], [], []⟩ (Or.inr rfl)

set_option maxRecDepth 8000 in
/-- Claim C5, counterexample: after a 410 carrying `staleDevices:[2]`,
the retransmit runs with `recurse = (e.code === 409) = false`, so a
following 409 is a terminal retry-limit error even though the script
offers a recoverable continuation — no further drift recovery is
permitted, refuting `recurse=true`. -/
theorem stale_retry_no_further_recovery :
    (sendToAddr ⟨1234, [1]⟩ 7
      [SendResp.proto ⟨410, [], [], [2]⟩, SendResp.proto ⟨409, [], [], []⟩,
        SendResp.ok]
      (initSt 0 [((7, 1), true), ((7, 2), true)]
        [KeyResp.ok ⟨9, [⟨2, PKOut.ok⟩]⟩])).2.2.transmitLog.length = 2
    ∧ (sendToAddr ⟨1234, [1]⟩ 7
        [SendResp.proto ⟨410, [], [], [2]⟩, SendResp.proto ⟨409, [], [], []⟩,
          SendResp.ok]
        (initSt 0 [((7, 1), true), ((7, 2), true)]
          [KeyResp.ok ⟨9, [⟨2, PKOut.ok⟩]⟩])).2.2.errs.map (fun e => e.2.1) =
      [Reason.retryLimit] := by
  exact ⟨by decide, by decide⟩

set_option maxRecDepth 8000 in
/-- Claim C5 (amended): on a 410 with `staleDevices:[2]` against stored
devices [1, 2], `doSendMessage` closes the open session of exactly device
2 (the record is retained in the store and reopened by the key fetch, not
removed), fetches fresh prekeys for exactly device 2, and re-runs
encryption and transmit for devices [1, 2] — but the retry runs with
`recurse=false`, so a drift response during it is a terminal retry-limit
error rather than a further recovery. -/
theorem stale_devices_recovery :
    ((sendToAddr ⟨1234, [1]⟩ 7
        [SendResp.proto ⟨410, [], [], [2]⟩, SendResp.ok]
        (initSt 0 [((7, 1), true), ((7, 2), true)]
          [KeyResp.ok ⟨9, [⟨2, PKOut.ok⟩]⟩])).2.2.closedLog = [(7, 2)]
    ∧ (sendToAddr ⟨1234, [1]⟩ 7
        [SendResp.proto ⟨410, [], [], [2]⟩, SendResp.ok]
        (initSt 0 [((7, 1), true), ((7, 2), true)]
          [KeyResp.ok ⟨9, [⟨2, PKOut.ok⟩]⟩])).2.2.removedLog = []
    ∧ (sendToAddr ⟨1234, [1]⟩ 7
        [SendResp.proto ⟨410, [], [], [2]⟩, SendResp.ok]
        (initSt 0 [((7, 1), true), ((7, 2), true)]
          [KeyResp.ok ⟨9, [⟨2, PKOut.ok⟩]⟩])).2.2.sessions =
      [((7, 1), true), ((7, 2), true)]
    ∧ (sendToAddr ⟨1234, [1]⟩ 7
        [SendResp.proto ⟨410, [], [], [2]⟩, SendResp.ok]
        (initSt 0 [((7, 1), true), ((7, 2), true)]
          [KeyResp.ok ⟨9, [⟨2, PKOut.ok⟩]⟩])).2.2.keyFetchLog = [(7, some 2)]
    ∧ (sendToAddr ⟨1234, [1]⟩ 7
        [SendResp.proto ⟨410, [], [], [2]⟩, SendResp.ok]
        (initSt 0 [((7, 1), true), ((7, 2), true)]
          [KeyResp.ok ⟨9, [⟨2, PKOut.ok⟩]⟩])).2.2.transmitLog.map
        (fun e => e.2.1) = [[1, 2], [1, 2]])
    ∧ (sendToAddr ⟨1234, [1]⟩ 7
        [SendResp.proto ⟨410, [], [], [2]⟩, SendResp.proto ⟨410, [], [], [2]⟩]
        (initSt 0 [((7, 1), true), ((7, 2), true)]
          [KeyResp.ok ⟨9, [⟨2, PKOut.ok⟩]⟩,
            KeyResp.ok ⟨9, [⟨2, PKOut.ok⟩]⟩])).2.2.errs.map (fun e => e.2.1) =
      [Reason.retryLimit] := by
  exact ⟨⟨by decide, by decide, by decide, by decide, by decide⟩, by decide⟩

set_option maxRecDepth 8000 in
/-- Claim C6, counterexample: when the stored device list for our own
address is empty, `sendToAddr` does not stop after journaling `sent`: it
falls through into `doSendMessage`, performs one transmit (of an empty
ciphertext list) and journals `sent` a second time. -/
theorem own_addr_empty_still_transmits :
    (sendToAddr ⟨1234, [1]⟩ 7 [SendResp.ok] (initSt 7 [] [])).2.2.transmitLog.length = 1
    ∧ (sendToAddr ⟨1234, [1]⟩ 7 [SendResp.ok] (initSt 7 [] [])).2.2.sent.length = 2 := by
  exact ⟨by decide, by decide⟩

set_option maxRecDepth 8000 in
/-- Claim C6 (amended): with an empty stored device list,
`getStaleDeviceIdsForAddr` defaults to [1] for a foreign address, so the
primary device is fetched and contacted; for our own address the pipeline
journals `sent` but does not stop — it proceeds through `doSendMessage`
with the empty device list, performing no per-device encryption (no
device entries) and no key fetch, but one transmit of an empty ciphertext
list, journaling `sent` a second time on success. -/
theorem empty_device_list_defaults :
    (getStaleDeviceIdsForAddr 9 (initSt 0 [] []) = [1]
    ∧ (sendToAddr ⟨1234, [1]⟩ 9 [SendResp.ok]
        (initSt 0 [] [KeyResp.ok ⟨5, [⟨1, PKOut.ok⟩]⟩])).2.2.keyFetchLog =
      [(9, some 1)]
    ∧ (sendToAddr ⟨1234, [1]⟩ 9 [SendResp.ok]
        (initSt 0 [] [KeyResp.ok ⟨5, [⟨1, PKOut.ok⟩]⟩])).2.2.sent = [9]
    ∧ (sendToAddr ⟨1234, [1]⟩ 9 [SendResp.ok]
        (initSt 0 [] [KeyResp.ok ⟨5, [⟨1, PKOut.ok⟩]⟩])).2.2.errs = [])
    ∧ ((sendToAddr ⟨1234, [1]⟩ 7 [SendResp.ok] (initSt 7 [] [])).2.2.sent = [7, 7]
    ∧ (sendToAddr ⟨1234, [1]⟩ 7 [SendResp.ok] (initSt 7 [] [])).2.2.transmitLog.map
        (fun e => (e.1, e.2.1)) = [(7, [])]
    ∧ (sendToAddr ⟨1234, [1]⟩ 7 [SendResp.ok] (initSt 7 [] [])).2.2.keyFetchLog = []
    ∧ (sendToAddr ⟨1234, [1]⟩ 7 [SendResp.ok] (initSt 7 [] [])).2.2.errs = []) := by
  exact ⟨⟨by decide, by decide, by decide, by decide⟩,
    by decide, by decide, by decide, by decide⟩

/-- Claim C8: during per-device prekey fetch with an explicit
`updateDevices` list, a 404 protocol error for a device other than 1
removes that device's session locally (via `removeDeviceIdsForAddr`,
i.e. `storage.removeSession`) and the loop continues with the remaining
devices; a 404 for device 1 propagates out of the fetch unchanged. -/
theorem getKeysForAddr_404_handling (addr dev : Nat) (rest : List Nat)
    (p : ProtoErr) (tail : List KeyResp) (st : St)
    (hscript : st.keyScript = KeyResp.err p :: tail) (hcode : p.code = 404) :
    (dev ≠ 1 →
      getKeysForAddr addr (some (dev :: rest)) st =
        getKeysLoopF addr (dev :: rest) rest
          (removeDeviceIdsForAddr addr [dev]
            { st with keyScript := tail,
                      keyFetchLog := st.keyFetchLog ++ [(addr, some dev)] }))
    ∧ (dev = 1 →
      getKeysForAddr addr (some (dev :: rest)) st =
        (Except.error (OutErr.protocol p),
          { st with keyScript := tail,
                    keyFetchLog := st.keyFetchLog ++ [(addr, some dev)] })) := by
  constructor
  · intro hdev
    simp [getKeysForAddr, getKeysLoopF, serverGetKeys, hscript, hcode, hdev]
  · intro hdev
    subst hdev
    simp [getKeysForAddr, getKeysLoopF, serverGetKeys, hscript, hcode]

/-- Claim C8, witness: `getKeysForAddr_404_handling` evaluated at device
2 with a concrete 404 script — the session of device 2 is removed and the
loop ends without failing. -/
theorem getKeysForAddr_404_handling_witness :
    getKeysForAddr 7 (some [2])
      (initSt 0 [((7, 2), true)] [KeyResp.err ⟨404, [], [], []⟩]) =
      getKeysLoopF 7 [2] []
        (removeDeviceIdsForAddr 7 [2]
          { initSt 0 [((7, 2), true)] [KeyResp.err ⟨404, [], [], []⟩] with
            keyScript := [], keyFetchLog := [(7, some 2)] }) :=
  (getKeysForAddr_404_handling 7 2 [] ⟨404, [], [], []⟩ []
    (initSt 0 [((7, 2), true)] [KeyResp.err ⟨404, [], [], []⟩]) rfl rfl).1
    (by decide)

/-- Claim C7: when the handler raises UntrustedIdentityKeyError on a
first (non-reentrant) `handleEnvelope` attempt, exactly one `keychange`
event is dispatched; if the listener accepts, the same envelope is
re-handled exactly once with `reentrant=true` and the resulting `message`
event carries `keyChange:true`; if UntrustedIdentityKeyError recurs on
the reentrant attempt, a terminal `error` event is emitted and no further
retry occurs; if the listener does not accept, handling stops after the
`keychange` event without consuming another attempt. -/
theorem handleEnvelope_untrusted_identity_flow (s d t : Nat) :
    handleEnvelope true false ⟨s, d, t, false, true, false, false⟩
      ⟨[], [some RecvErr.untrustedIdentity, none], [], 0, []⟩ =
      (Except.ok (), ⟨[], [], [REvent.keychange s, REvent.message s true], 0, []⟩)
    ∧ handleEnvelope true false ⟨s, d, t, false, true, false, false⟩
        ⟨[], [some RecvErr.untrustedIdentity, some RecvErr.untrustedIdentity],
          [], 0, []⟩ =
      (Except.ok (), ⟨[], [], [REvent.keychange s, REvent.errorEv s t], 0, []⟩)
    ∧ handleEnvelope false false ⟨s, d, t, false, true, false, false⟩
        ⟨[], [some RecvErr.untrustedIdentity, none], [], 0, []⟩ =
      (Except.ok (), ⟨[], [none], [REvent.keychange s], 0, []⟩) := by
  refine ⟨?_, ?_, ?_⟩ <;>
    simp [handleEnvelope, handleEnvelopeR, popAttempt, sessionFault, isSessionError]

/-- Claim C10: whenever the handler raises a SessionError, the recovery
actions run — for PreKeyError new prekeys are generated and registered
first; then the session for `source.sourceDevice` is closed with a
retransmit request for `envelope.timestamp` — and handling still falls
through to dispatch an `error` event carrying the envelope, so
session-fault recovery is never silent. -/
theorem handleEnvelope_session_error_recovery (s d t : Nat) :
    handleEnvelope false false ⟨s, d, t, false, true, false, false⟩
      ⟨[], [some RecvErr.session], [], 0, []⟩ =
      (Except.ok (), ⟨[], [], [REvent.errorEv s t], 0, [(s, d, t)]⟩)
    ∧ handleEnvelope false false ⟨s, d, t, false, true, false, false⟩
        ⟨[], [some RecvErr.preKey], [], 0, []⟩ =
      (Except.ok (), ⟨[], [], [REvent.errorEv s t], 1, [(s, d, t)]⟩) := by
  constructor <;>
    simp [handleEnvelope, popAttempt, sessionFault, isSessionError]
